import Mathlib

/-!
Verification of the chatterbox-czech-api web client and its gateway.

The development embeds the request-orchestration and media-capture pipeline
of the repository: the base64 payload encoder used when ingesting audio
(`Settings.vue`, handleFileSelect and the recorder's onstop callback), the
recording state machine, the voice-sample manager, the synthesis request
controller (`App.vue`), and the HTTP gateway (`server.js`).  Machine bytes
are modelled as natural numbers below 256, strings as Lean strings, and the
asynchronous network calls as explicit outcome parameters threaded through
pure state-transition functions.
-/

/-! ## Payload encoder

`Settings.vue` encodes audio bytes with
`btoa(new Uint8Array(buf).reduce((d, b) => d + String.fromCharCode(b), ''))`,
which is RFC 4648 base64 over the raw bytes.  `b64encode` embeds that
computation.  The inverse direction (the browser decoding the
`data:audio/wav;base64,...` media reference and `atob` on receipt) is not
part of the repository's own sources.

Modelled from the spec: `b64decode` is the "inverse on receipt" of §4.3
(the standard base64 decoder applied by the platform when the encoded text
is played back or parsed), faithful to canonical base64 with `=` padding. -/

def b64Alphabet : List Char :=
  "ABCDEFGHIJKLMNOPQRSTUVWXYZabcdefghijklmnopqrstuvwxyz0123456789+/".toList

/-- Character for a six-bit group, as produced by btoa. -/
def sextetToChar (n : Nat) : Char := b64Alphabet.getD n 'A'

/-- Index of a character in the base64 alphabet, scanning from `i`. -/
def charIndexAux : List Char → Nat → Char → Option Nat
  | [], _, _ => none
  | a :: as, i, c => if a == c then some i else charIndexAux as (i + 1) c

/-- Six-bit value of a base64 character, `none` for characters outside the
alphabet (in particular for the padding character). -/
def charToSextet (c : Char) : Option Nat := charIndexAux b64Alphabet 0 c

/-- Base64 encoding of a byte sequence, grouping three bytes into four
characters with canonical `=` padding; embeds the btoa call sites of
`Settings.vue`. -/
def b64encode : List Nat → List Char
  | [] => []
  | [a] => [sextetToChar (a / 4), sextetToChar (a % 4 * 16), '=', '=']
  | [a, b] =>
      [sextetToChar (a / 4), sextetToChar (a % 4 * 16 + b / 16),
       sextetToChar (b % 16 * 4), '=']
  | a :: b :: c :: rest =>
      sextetToChar (a / 4) :: sextetToChar (a % 4 * 16 + b / 16) ::
      sextetToChar (b % 16 * 4 + c / 64) :: sextetToChar (c % 64) :: b64encode rest

/-- Base64 decoding: four characters at a time, rejecting non-alphabet
characters, interior padding, trailing garbage and non-canonical padding
bits. -/
def b64decode : List Char → Option (List Nat)
  | [] => some []
  | c1 :: c2 :: c3 :: c4 :: rest =>
      (charToSextet c1).bind fun s1 =>
      (charToSextet c2).bind fun s2 =>
      if c3 = '=' then
        if c4 = '=' ∧ rest = [] ∧ s2 % 16 = 0 then
          some [s1 * 4 + s2 / 16]
        else none
      else
        (charToSextet c3).bind fun s3 =>
        if c4 = '=' then
          if rest = [] ∧ s3 % 4 = 0 then
            some [s1 * 4 + s2 / 16, s2 % 16 * 16 + s3 / 4]
          else none
        else
          (charToSextet c4).bind fun s4 =>
          (b64decode rest).map fun bs =>
            (s1 * 4 + s2 / 16) :: (s2 % 16 * 16 + s3 / 4) ::
            (s3 % 4 * 64 + s4) :: bs
  | _ => none

/-- Valid encoded text is text the encoder can produce from some byte
sequence (canonical base64 with canonical padding). -/
def ValidB64 (cs : List Char) : Prop :=
  ∃ x : List Nat, (∀ y ∈ x, y < 256) ∧ b64encode x = cs

/-! ## Shared string model

JavaScript's String.prototype.trim, used by the guards
`!text.trim()` (App.vue) and `!sampleName.value.trim()` (Settings.vue), is
modelled over the character list: whitespace is stripped from both ends. -/

/-- Model of the JavaScript trim call: drop whitespace from both ends. -/
def jsTrim (s : String) : String :=
  String.mk (((s.data.dropWhile Char.isWhitespace).reverse.dropWhile
    Char.isWhitespace).reverse)

/-- Model of the JavaScript a || b || c chain over strings used for error
messages: err.response.data.detail, else err.message, else a literal
fallback (empty strings are falsy). -/
def errText (detail msg fallback : String) : String :=
  if detail = "" then (if msg = "" then fallback else msg) else detail

/-! ## Gateway (client/server.js)

The express app registers, in order: a middleware forwarding `req.path`
equal to the health path or starting with the versioned API stem to the
proxy, `express.static(distDir)`, and a catch-all sending `index.html`.
The proxy is created with `changeOrigin: true` and no path rewrite. -/

structure HttpRequest where
  path : String
  query : String
  method : String
  headers : List (String × String)
  body : List Nat
  deriving DecidableEq

inductive GatewayAction where
  | proxied (req : HttpRequest)
  | staticFile (path : String)
  | appShell
  deriving DecidableEq

/-- Route test of the first middleware:
req.path === a health path, or req.path starts with the API stem. -/
def isApiPath (p : String) : Bool :=
  decide (p = "/health") || "/v1".data.isPrefixOf p.data

/-- Effect of changeOrigin: the host header value is rewritten to the
target origin; every other header is left alone. -/
def changeOriginHeaders (target : String) (hs : List (String × String)) :
    List (String × String) :=
  hs.map fun kv => if kv.1 = "host" then (kv.1, target) else kv

/-- Request actually sent upstream by the proxy middleware: identical to
the inbound request except for the rewritten host header. -/
def proxyForward (target : String) (r : HttpRequest) : HttpRequest :=
  { r with headers := changeOriginHeaders target r.headers }

/-- Middleware chain of server.js, first match wins: API paths go to the
proxy, then static assets, then the SPA fallback to index.html. -/
def gatewayHandle (target : String) (assets : List String) (r : HttpRequest) :
    GatewayAction :=
  if isApiPath r.path then GatewayAction.proxied (proxyForward target r)
  else if r.path ∈ assets then GatewayAction.staticFile r.path
  else GatewayAction.appShell

/-! ## Data model shared by both pages -/

structure VoiceSample where
  id : String
  name : String
  createdAt : String
  fileSize : Nat
  deriving DecidableEq

/-- Caught HTTP failure: the detail field of the backend response body (""
when absent) and the error message property. -/
def HttpFailure := String × String
  deriving DecidableEq

/-! ## Synthesis page (client/src/App.vue)

Reactive refs of the script-setup block become fields; each async handler
becomes a pure transition parameterised by the outcome of its await. -/

structure AppState where
  text : String
  language : String
  speed : Rat
  selectedVoiceSample : String
  voiceSamples : List VoiceSample
  audioSrc : String
  loading : Bool
  error : String
  uploadedFileName : String
  uploadedFileSize : String
  audioBlob : Option (List Nat)
  deriving DecidableEq

/-- Initial ref values of App.vue. -/
def appInit : AppState :=
  { text := "Třetí přání je výkon pohřební služby", language := "cs",
    speed := 1.1, selectedVoiceSample := "", voiceSamples := [],
    audioSrc := "", loading := false, error := "", uploadedFileName := "",
    uploadedFileSize := "", audioBlob := none }

/-- Disabled condition of the Synthesize button:
loading || !text.trim(). -/
def synthDisabled (s : AppState) : Bool :=
  s.loading || (jsTrim s.text == "")

/-- Synchronous head of synthesize(), run before the await on the POST:
loading set, previous error, audio source and audio blob cleared. -/
def synthesizeStart (s : AppState) : AppState :=
  { s with loading := true, error := "", audioSrc := "", audioBlob := none }

/-- Click on the Synthesize button. A disabled control delivers no event,
so the state is unchanged and no request is issued; otherwise synthesize()
runs its synchronous head and issues the POST (second component true iff a
network request goes out). -/
def clickSynthesize (s : AppState) : AppState × Bool :=
  if synthDisabled s then (s, false)
  else (synthesizeStart s, true)

/-- Resolution of the synthesize() POST. ok carries wav_base64 ("" models
a missing field, which is falsy and raises 'No audio returned', caught by
the same catch block); error carries detail and message. finally clears
loading. -/
def synthFinish (s : AppState) (outcome : Except (String × String) String) :
    AppState :=
  match outcome with
  | Except.ok w =>
      if w = "" then
        { s with error := errText "" "No audio returned" "Request failed",
                 loading := false }
      else
        { s with audioSrc := "data:audio/wav;base64," ++ w, loading := false }
  | Except.error (d, m) =>
      { s with error := errText d m "Request failed", loading := false }

/-- Successful voice-sample list fetch on mount: samples stored. -/
def loadVoiceSamplesOk (s : AppState) (samples : List VoiceSample) : AppState :=
  { s with voiceSamples := samples }

/-- Failed voice-sample list fetch on mount: the catch block only calls
console.error, writing no reactive state, so the transition is the
identity. -/
def loadVoiceSamplesErr (s : AppState) : AppState := s

/-! ## Settings page (client/src/Settings.vue) -/

structure SettingsState where
  selectedFileName : String
  audioData : String
  sampleName : String
  uploading : Bool
  uploadError : String
  uploadSuccess : String
  isRecording : Bool
  recordingDuration : Nat
  recordedAudioUrl : String
  recorderActive : Bool
  audioChunks : List (List Nat)
  intervalActive : Bool
  samples : List VoiceSample
  loading : Bool
  samplesError : String
  deleting : Option String
  tracksLive : Bool
  deriving DecidableEq

/-- Initial ref values of Settings.vue (mediaRecorder and
recordingInterval are null, the microphone is not held). -/
def settingsInit : SettingsState :=
  { selectedFileName := "", audioData := "", sampleName := "",
    uploading := false, uploadError := "", uploadSuccess := "",
    isRecording := false, recordingDuration := 0, recordedAudioUrl := "",
    recorderActive := false, audioChunks := [], intervalActive := false,
    samples := [], loading := false, samplesError := "", deleting := none,
    tracksLive := false }

/-- handleFileSelect after the FileReader onload fires: the file bytes are
base64-encoded into audioData and the recorded-audio preview is cleared. -/
def handleFileSelect (s : SettingsState) (name : String) (bytes : List Nat) :
    SettingsState :=
  { s with selectedFileName := name,
           audioData := String.mk (b64encode bytes),
           recordedAudioUrl := "" }

/-- startRecording when getUserMedia succeeds: a recorder over the granted
stream is created (the microphone tracks are now live), chunks reset,
recording flag and duration counter started. -/
def startRecordingOk (s : SettingsState) : SettingsState :=
  { s with recorderActive := true, audioChunks := [], isRecording := true,
           recordingDuration := 0, intervalActive := true,
           tracksLive := true }

/-- startRecording when getUserMedia rejects: the catch block surfaces the
failure in uploadError. -/
def startRecordingErr (s : SettingsState) (msg : String) : SettingsState :=
  { s with uploadError := "Failed to access microphone: " ++ msg }

/-- ondataavailable: a fragment is appended to audioChunks only when its
size is positive. -/
def onDataAvailable (s : SettingsState) (frag : List Nat) : SettingsState :=
  if 0 < frag.length then { s with audioChunks := s.audioChunks ++ [frag] }
  else s

/-- stopRecording: guarded by mediaRecorder && isRecording; stops the
recorder (which later fires onstop), clears the flag and the interval. -/
def stopRecordingClick (s : SettingsState) : SettingsState :=
  if s.recorderActive && s.isRecording then
    { s with isRecording := false, intervalActive := false }
  else s

/-- onstop callback of the recorder: the chunks are concatenated into one
blob, a preview object URL is produced, the blob bytes are base64-encoded
into audioData, the file selection is cleared, an automatic sample name is
filled in when blank, and finally every track of the captured stream is
stopped. -/
def recorderOnStop (s : SettingsState) (now : String) : SettingsState :=
  let blob := s.audioChunks.flatten
  { s with recordedAudioUrl := "objectURL",
           audioData := String.mk (b64encode blob),
           selectedFileName := "",
           sampleName := if jsTrim s.sampleName == "" then "Recorded " ++ now
                         else s.sampleName,
           tracksLive := false }

/-- onUnmounted hook: clears the duration interval and revokes the preview
object URL; it touches nothing else (in particular not the stream
tracks). -/
def onUnmountedRun (s : SettingsState) : SettingsState :=
  { s with intervalActive := false }

/-- loadSamples, condensed over its await: loading toggled around the GET;
on success samples replaced and the error cleared, on failure the error
text surfaced and samples untouched. -/
def loadSamplesRun (s : SettingsState)
    (fetched : Except (String × String) (List VoiceSample)) : SettingsState :=
  match fetched with
  | Except.ok l => { s with samples := l, samplesError := "", loading := false }
  | Except.error (d, m) =>
      { s with samplesError := errText d m "Failed to load samples",
               loading := false }

/-- uploadSample: early return when audioData is empty or the trimmed name
is empty (no request issued, boolean false); otherwise POST, on success
reset the form and re-fetch the list, on failure surface uploadError. The
second parameter is the POST outcome, the third the outcome of the
re-fetch. -/
def uploadSampleRun (s : SettingsState)
    (post : Except (String × String) Unit)
    (refetched : Except (String × String) (List VoiceSample)) :
    SettingsState × Bool :=
  if s.audioData == "" || jsTrim s.sampleName == "" then (s, false)
  else
    let s1 := { s with uploading := true, uploadError := "",
                       uploadSuccess := "" }
    match post with
    | Except.ok _ =>
        let s2 := { s1 with
          uploadSuccess := "Voice sample uploaded successfully!",
          audioData := "", sampleName := "", selectedFileName := "",
          recordedAudioUrl := "", recordingDuration := 0 }
        let s3 := loadSamplesRun s2 refetched
        ({ s3 with uploading := false }, true)
    | Except.error (d, m) =>
        ({ s1 with uploadError := errText d m "Upload failed",
                   uploading := false }, true)

/-- deleteSample: aborted without a request when the confirm dialog is
declined; otherwise DELETE with the row marked, on success an
unconditional re-fetch of the list, on failure the error surfaced; the row
mark is cleared in finally. -/
def deleteSampleRun (s : SettingsState) (id : String) (confirmed : Bool)
    (del : Except (String × String) Unit)
    (refetched : Except (String × String) (List VoiceSample)) :
    SettingsState × Bool :=
  if !confirmed then (s, false)
  else
    let s1 := { s with deleting := some id }
    match del with
    | Except.ok _ =>
        let s2 := loadSamplesRun s1 refetched
        ({ s2 with deleting := none }, true)
    | Except.error (d, m) =>
        ({ s1 with samplesError := errText d m "Failed to delete sample",
                   deleting := none }, true)

/-! ## Concrete states used by witnesses and counterexamples -/

/-- App.vue state with blank text and no prior error. -/
def appBlankText : AppState := { appInit with text := "" }

/-- Settings.vue state with recorded audio ready and a named sample. -/
def settingsReady : SettingsState :=
  { settingsInit with audioData := "UklGRg==", sampleName := "Alice" }

/-- Settings.vue state with a name typed but no audio ingested. -/
def settingsNoAudio : SettingsState :=
  { settingsInit with sampleName := "Alice" }

/-- Settings.vue state in the middle of an active recording. -/
def settingsRecording : SettingsState :=
  { settingsInit with isRecording := true, recorderActive := true,
                      intervalActive := true, tracksLive := true }

/-- Health-check request as the browser would send it. -/
def reqHealth : HttpRequest :=
  { path := "/health", query := "", method := "GET",
    headers := [("host", "localhost:4173"), ("accept", "application/json")],
    body := [] }

/-- A voice sample used by concrete instances. -/
def sampleAlice : VoiceSample :=
  { id := "id-1", name := "Alice", createdAt := "2026-01-01T00:00:00Z",
    fileSize := 36 }

theorem charToSextet_sextetToChar :
    ∀ n : Nat, n < 64 → charToSextet (sextetToChar n) = some n := by decide

theorem sextetToChar_ne_pad :
    ∀ n : Nat, n < 64 → sextetToChar n ≠ '=' := by decide

theorem b64decode_b64encode :
    ∀ x : List Nat, (∀ y ∈ x, y < 256) → b64decode (b64encode x) = some x
  | [], _ => rfl
  | [a], h => by
      have ha : a < 256 := h a (by simp)
      have h1 := charToSextet_sextetToChar (a / 4) (by omega)
      have h2 := charToSextet_sextetToChar (a % 4 * 16) (by omega)
      simp [b64encode, b64decode, h1, h2]
      omega
  | [a, b], h => by
      have ha : a < 256 := h a (by simp)
      have hb : b < 256 := h b (by simp)
      have h1 := charToSextet_sextetToChar (a / 4) (by omega)
      have h2 := charToSextet_sextetToChar (a % 4 * 16 + b / 16) (by omega)
      have h3 := charToSextet_sextetToChar (b % 16 * 4) (by omega)
      have hne3 := sextetToChar_ne_pad (b % 16 * 4) (by omega)
      simp [b64encode, b64decode, h1, h2, h3, hne3]
      omega
  | a :: b :: c :: rest, h => by
      have ha : a < 256 := h a (by simp)
      have hb : b < 256 := h b (by simp)
      have hc : c < 256 := h c (by simp)
      have ih := b64decode_b64encode rest (fun y hy => h y (by simp [hy]))
      have h1 := charToSextet_sextetToChar (a / 4) (by omega)
      have h2 := charToSextet_sextetToChar (a % 4 * 16 + b / 16) (by omega)
      have h3 := charToSextet_sextetToChar (b % 16 * 4 + c / 64) (by omega)
      have h4 := charToSextet_sextetToChar (c % 64) (by omega)
      have hne3 := sextetToChar_ne_pad (b % 16 * 4 + c / 64) (by omega)
      have hne4 := sextetToChar_ne_pad (c % 64) (by omega)
      simp [b64encode, b64decode, h1, h2, h3, h4, hne3, hne4, ih]
      omega

/-! ## General helper lemmas -/

theorem string_append_ne_empty (x y : String) (h : x ≠ "") : x ++ y ≠ "" := by
  obtain ⟨xs⟩ := x
  obtain ⟨ys⟩ := y
  intro hc
  apply h
  have hd : xs ++ ys = ([] : List Char) := by
    have he : (String.mk xs ++ String.mk ys).data = xs ++ ys := rfl
    rw [hc] at he
    exact he.symm
  have hx : xs = [] := (List.append_eq_nil.mp hd).1
  rw [hx]

theorem errText_ne_empty (d m fb : String) (hfb : fb ≠ "") :
    errText d m fb ≠ "" := by
  unfold errText
  split_ifs with h1 h2
  · exact hfb
  · exact h2
  · exact h1

theorem foldl_onDataAvailable_chunks (frags : List (List Nat)) :
    ∀ s : SettingsState, (frags.foldl onDataAvailable s).audioChunks
      = s.audioChunks ++ frags.filter (fun f => decide (0 < f.length)) := by
  induction frags with
  | nil => intro s; simp
  | cons f fs ih =>
      intro s
      simp only [List.foldl_cons, List.filter_cons]
      rw [ih]
      by_cases h : 0 < f.length
      · simp [onDataAvailable, h]
      · simp [onDataAvailable, h]

theorem flatten_filter_pos (frags : List (List Nat)) :
    (frags.filter (fun f => decide (0 < f.length))).flatten = frags.flatten := by
  induction frags with
  | nil => rfl
  | cons f fs ih =>
      by_cases h : 0 < f.length
      · simp [List.filter_cons, h, ih]
      · have hf : f = [] := List.eq_nil_of_length_eq_zero (by omega)
        subst hf
        simp [List.filter_cons, ih]

/-! ## Claims -/

/-- Claim C1: every inbound request path is classified by first-match
rule: a path equal to /health or with the /v1 stem at its front is
forwarded to the backend origin with path, query, method, body unmodified
and every header other than the origin (host) header preserved, the host
header being rewritten to the target; any other path is resolved against
the static-asset directory, and when no asset matches, the request is
answered with the application shell document. -/
theorem gateway_first_match_routing (target : String) (assets : List String)
    (r : HttpRequest) :
    ((r.path = "/health" ∨ "/v1".data.isPrefixOf r.path.data = true) →
       gatewayHandle target assets r
         = GatewayAction.proxied (proxyForward target r)
       ∧ (proxyForward target r).path = r.path
       ∧ (proxyForward target r).query = r.query
       ∧ (proxyForward target r).method = r.method
       ∧ (proxyForward target r).body = r.body
       ∧ (∀ kv ∈ r.headers, kv.1 ≠ "host" →
            kv ∈ (proxyForward target r).headers)
       ∧ (∀ kv ∈ r.headers, kv.1 = "host" →
            (kv.1, target) ∈ (proxyForward target r).headers))
    ∧ (¬(r.path = "/health" ∨ "/v1".data.isPrefixOf r.path.data = true) →
       (r.path ∈ assets →
          gatewayHandle target assets r = GatewayAction.staticFile r.path)
       ∧ (r.path ∉ assets →
          gatewayHandle target assets r = GatewayAction.appShell)) := by
  constructor
  · intro h
    have hapi : isApiPath r.path = true := by
      rcases h with h | h
      · simp [isApiPath, h]
      · simp [isApiPath, h]
    refine ⟨by simp [gatewayHandle, hapi], rfl, rfl, rfl, rfl, ?_, ?_⟩
    · intro kv hkv hne
      show kv ∈ r.headers.map
        (fun kv => if kv.1 = "host" then (kv.1, target) else kv)
      exact List.mem_map.mpr ⟨kv, hkv, by simp [hne]⟩
    · intro kv hkv heq
      show (kv.1, target) ∈ r.headers.map
        (fun kv => if kv.1 = "host" then (kv.1, target) else kv)
      exact List.mem_map.mpr ⟨kv, hkv, by simp [heq]⟩
  · intro h
    have hapi : isApiPath r.path = false := by
      push_neg at h
      simp only [isApiPath, Bool.or_eq_false_iff, decide_eq_false_iff_not]
      exact ⟨h.1, Bool.eq_false_iff.mpr h.2⟩
    constructor
    · intro hmem
      simp [gatewayHandle, hapi, hmem]
    · intro hmem
      simp [gatewayHandle, hapi, hmem]

/-- Witness for C1 at the health-check request. -/
theorem gateway_first_match_routing_witness :
    gatewayHandle "api:8000" ["/assets/index.js"] reqHealth
      = GatewayAction.proxied (proxyForward "api:8000" reqHealth) :=
  ((gateway_first_match_routing "api:8000" ["/assets/index.js"] reqHealth).1
    (Or.inl rfl)).1

/-- Claim C2: the payload encoder is a pure bijection between byte
sequences and base64 text: decoding an encoded byte sequence (empty ones
included) restores it exactly, and every valid encoded text decodes to a
byte sequence that re-encodes to the same text. -/
theorem payload_encoder_bijection :
    (∀ x : List Nat, (∀ y ∈ x, y < 256) → b64decode (b64encode x) = some x)
    ∧ (∀ cs : List Char, ValidB64 cs →
        ∃ x : List Nat, b64decode cs = some x ∧ b64encode x = cs) := by
  constructor
  · exact b64decode_b64encode
  · rintro cs ⟨x, hx, rfl⟩
    exact ⟨x, b64decode_b64encode x hx, rfl⟩

/-- Witness for C2 on the bytes of a short RIFF header fragment. -/
theorem payload_encoder_bijection_witness :
    b64decode (b64encode [82, 73, 70, 70, 0, 255])
      = some [82, 73, 70, 70, 0, 255] :=
  payload_encoder_bijection.1 [82, 73, 70, 70, 0, 255] (by decide)

/-- Claim C3, refuted at a concrete state: with blank text the Synthesize
click issues no network call (first conjunct holds), but no EmptyInput
failure is surfaced — the error text, the only failure surface of the
page, stays empty, so the stated conjunction fails. -/
theorem blank_submit_counterexample :
    ¬ ((clickSynthesize appBlankText).2 = false
        ∧ (clickSynthesize appBlankText).1.error ≠ "") := by
  intro hcl
  exact hcl.2 (by decide)

/-- Claim C3 as amended: with blank (empty or whitespace-only) text the
Synthesize control is disabled, so a click issues no network call and
changes no state; in particular no EmptyInput error message appears. -/
theorem blank_submit_no_request (s : AppState) (h : jsTrim s.text = "") :
    clickSynthesize s = (s, false) := by
  simp [clickSynthesize, synthDisabled, h]

/-- Witness for amended C3 at the blank-text state. -/
theorem blank_submit_no_request_witness :
    clickSynthesize appBlankText = (appBlankText, false) :=
  blank_submit_no_request appBlankText (by decide)

/-- Claim C4, refuted at a concrete state: tearing the component down in
the middle of an active recording leaves the captured media-stream tracks
running — the unmount handler only clears the duration interval and
revokes the preview URL. -/
theorem mic_release_counterexample :
    ¬ ((recorderOnStop (stopRecordingClick settingsRecording)
          "2026-10-12").tracksLive = false
        ∧ (onUnmountedRun settingsRecording).tracksLive = false) := by
  intro hcl
  exact absurd hcl.2 (by decide)

/-- Claim C4 as amended: every completed stop of a recording (the
stopRecording click followed by the recorder's onstop callback) stops the
captured tracks, but the unmount handler leaves the tracks exactly as they
were, so a teardown during an active recording keeps the microphone
held. -/
theorem mic_release_amended (s : SettingsState) (now : String) :
    (recorderOnStop (stopRecordingClick s) now).tracksLive = false
    ∧ (onUnmountedRun s).tracksLive = s.tracksLive :=
  ⟨rfl, rfl⟩

/-- Claim C5: for every sequence of data fragments emitted during one
recording, the finalized capture's byte content equals the concatenation
of the fragments' bytes in arrival order — both as the blob concatenated
by onstop and as the base64 audio payload derived from it. -/
theorem capture_concat_bytes (s0 : SettingsState) (frags : List (List Nat))
    (now : String) :
    (recorderOnStop (stopRecordingClick
        (frags.foldl onDataAvailable (startRecordingOk s0))) now).audioData
      = String.mk (b64encode frags.flatten)
    ∧ (frags.foldl onDataAvailable (startRecordingOk s0)).audioChunks.flatten
      = frags.flatten := by
  have hchunks :
      (frags.foldl onDataAvailable (startRecordingOk s0)).audioChunks
        = frags.filter (fun f => decide (0 < f.length)) := by
    rw [foldl_onDataAvailable_chunks]
    simp [startRecordingOk]
  have hstop :
      (stopRecordingClick
          (frags.foldl onDataAvailable (startRecordingOk s0))).audioChunks
        = (frags.foldl onDataAvailable (startRecordingOk s0)).audioChunks := by
    unfold stopRecordingClick
    split <;> rfl
  constructor
  · show String.mk (b64encode (stopRecordingClick
        (frags.foldl onDataAvailable (startRecordingOk s0))).audioChunks.flatten)
      = String.mk (b64encode frags.flatten)
    rw [hstop, hchunks, flatten_filter_pos]
  · rw [hchunks, flatten_filter_pos]

/-- Claim C6: after a successful upload and after a successful delete the
visible sample list is exactly the result of the fresh list() re-fetch,
whatever was cached before; and when the re-fetch itself fails the cached
list is left untouched — it is never patched locally with the mutation. -/
theorem refetch_after_mutation (s : SettingsState) (l : List VoiceSample)
    (id d m : String)
    (ha : s.audioData ≠ "") (hn : jsTrim s.sampleName ≠ "") :
    (uploadSampleRun s (Except.ok ()) (Except.ok l)).1.samples = l
    ∧ (deleteSampleRun s id true (Except.ok ()) (Except.ok l)).1.samples = l
    ∧ (uploadSampleRun s (Except.ok ())
        (Except.error (d, m))).1.samples = s.samples
    ∧ (deleteSampleRun s id true (Except.ok ())
        (Except.error (d, m))).1.samples = s.samples := by
  refine ⟨?_, ?_, ?_, ?_⟩ <;>
    simp [uploadSampleRun, deleteSampleRun, loadSamplesRun, ha, hn]

/-- Witness for C6 at a ready-to-upload state and a singleton backend
list. -/
theorem refetch_after_mutation_witness :
    (uploadSampleRun settingsReady (Except.ok ())
        (Except.ok [sampleAlice])).1.samples = [sampleAlice]
    ∧ (deleteSampleRun settingsReady "id-1" true (Except.ok ())
        (Except.ok [sampleAlice])).1.samples = [sampleAlice]
    ∧ (uploadSampleRun settingsReady (Except.ok ())
        (Except.error ("boom", "err"))).1.samples = settingsReady.samples
    ∧ (deleteSampleRun settingsReady "id-1" true (Except.ok ())
        (Except.error ("boom", "err"))).1.samples = settingsReady.samples :=
  refetch_after_mutation settingsReady [sampleAlice] "id-1" "boom" "err"
    (by decide) (by decide)

/-- Claim C7: whenever a synthesis submission actually goes out, the state
at request-issue time already has the previous error, audio source and
audio blob cleared and the loading flag set — the clearing happens
synchronously at submission start, not at completion. -/
theorem clear_state_at_submission (s : AppState)
    (h : (clickSynthesize s).2 = true) :
    (clickSynthesize s).1.error = ""
    ∧ (clickSynthesize s).1.audioSrc = ""
    ∧ (clickSynthesize s).1.audioBlob = none
    ∧ (clickSynthesize s).1.loading = true := by
  unfold clickSynthesize at h ⊢
  by_cases hd : synthDisabled s
  · simp [hd] at h
  · simp [hd, synthesizeStart]

/-- Witness for C7 at the initial App.vue state. -/
theorem clear_state_at_submission_witness :
    (clickSynthesize appInit).1.error = ""
    ∧ (clickSynthesize appInit).1.audioSrc = ""
    ∧ (clickSynthesize appInit).1.audioBlob = none
    ∧ (clickSynthesize appInit).1.loading = true :=
  clear_state_at_submission appInit (by decide)

/-- Claim C8, refuted at a concrete state: invoking upload with no audio
ingested issues no HTTP request (first conjunct holds), but no
MissingAudio failure is surfaced — uploadError stays empty, the handler
just returns, so the stated conjunction fails. -/
theorem upload_guard_counterexample :
    ¬ ((uploadSampleRun settingsNoAudio (Except.ok ())
          (Except.ok [])).2 = false
        ∧ (uploadSampleRun settingsNoAudio (Except.ok ())
          (Except.ok [])).1.uploadError ≠ "") := by
  intro hcl
  exact hcl.2 (by decide)

/-- Claim C8 as amended: with an empty (or whitespace-only) name or no
audio data present, uploadSample returns before any HTTP request and
leaves the state unchanged; no EmptyName or MissingAudio error message is
surfaced (the control is disabled or hidden instead). -/
theorem upload_guard_no_request (s : SettingsState)
    (post : Except (String × String) Unit)
    (refetched : Except (String × String) (List VoiceSample))
    (h : s.audioData = "" ∨ jsTrim s.sampleName = "") :
    uploadSampleRun s post refetched = (s, false) := by
  rcases h with h | h <;> simp [uploadSampleRun, h]

/-- Witness for amended C8 at the no-audio state. -/
theorem upload_guard_no_request_witness :
    uploadSampleRun settingsNoAudio (Except.ok ()) (Except.ok [])
      = (settingsNoAudio, false) :=
  upload_guard_no_request settingsNoAudio (Except.ok ()) (Except.ok [])
    (Or.inl rfl)

/-- Claim C9, refuted at a concrete state: a failure of the voice-sample
list fetch on the synthesis page is only logged to the console — the
transition is the identity, so no visible error state is set and the
"never only logged" part of the claim fails. -/
theorem list_fetch_error_counterexample :
    ¬ ((loadVoiceSamplesErr appInit).error ≠ "") := by
  intro hcl
  exact hcl rfl

/-- Claim C9 as amended: every caught error path of the settings page
(list fetch, upload, delete, microphone access) and the synthesis request
itself sets a non-empty visible error text, but the voice-sample list
fetch of the synthesis page is only logged: its failure transition is the
identity on the state. -/
theorem caught_error_paths_amended (s : SettingsState) (a : AppState)
    (d m id : String)
    (refetched : Except (String × String) (List VoiceSample))
    (hau : s.audioData ≠ "") (hname : jsTrim s.sampleName ≠ "") :
    (loadSamplesRun s (Except.error (d, m))).samplesError ≠ ""
    ∧ (uploadSampleRun s (Except.error (d, m)) refetched).1.uploadError ≠ ""
    ∧ (deleteSampleRun s id true (Except.error (d, m))
        refetched).1.samplesError ≠ ""
    ∧ (startRecordingErr s m).uploadError ≠ ""
    ∧ (synthFinish a (Except.error (d, m))).error ≠ ""
    ∧ loadVoiceSamplesErr a = a := by
  refine ⟨?_, ?_, ?_, ?_, ?_, rfl⟩
  · show errText d m "Failed to load samples" ≠ ""
    exact errText_ne_empty _ _ _ (by decide)
  · have hg : (s.audioData == "" || jsTrim s.sampleName == "") = false := by
      simp [hau, hname]
    have hval : (uploadSampleRun s (Except.error (d, m))
        refetched).1.uploadError = errText d m "Upload failed" := by
      simp [uploadSampleRun, hg]
    rw [hval]
    exact errText_ne_empty _ _ _ (by decide)
  · have hval : (deleteSampleRun s id true (Except.error (d, m))
        refetched).1.samplesError = errText d m "Failed to delete sample" := by
      simp [deleteSampleRun]
    rw [hval]
    exact errText_ne_empty _ _ _ (by decide)
  · show "Failed to access microphone: " ++ m ≠ ""
    exact string_append_ne_empty _ _ (by decide)
  · show errText d m "Request failed" ≠ ""
    exact errText_ne_empty _ _ _ (by decide)

/-- Witness for amended C9 at concrete failing calls. -/
theorem caught_error_paths_amended_witness :
    (loadSamplesRun settingsReady
        (Except.error ("boom", "err"))).samplesError ≠ ""
    ∧ (uploadSampleRun settingsReady (Except.error ("boom", "err"))
        (Except.ok [])).1.uploadError ≠ ""
    ∧ (deleteSampleRun settingsReady "id-1" true
        (Except.error ("boom", "err")) (Except.ok [])).1.samplesError ≠ ""
    ∧ (startRecordingErr settingsReady "err").uploadError ≠ ""
    ∧ (synthFinish appInit (Except.error ("boom", "err"))).error ≠ ""
    ∧ loadVoiceSamplesErr appInit = appInit :=
  caught_error_paths_amended settingsReady appInit "boom" "err" "id-1"
    (Except.ok []) (by decide) (by decide)

/-- Claim C10: a data-availability event carrying a zero-size fragment is
discarded, so the chunk sequence after any recording run is exactly the
positive-size fragments in arrival order, never contains an empty
fragment, and the concatenated bytes of the finalized capture are
unaffected by the filtering. -/
theorem empty_fragment_filtered (s0 : SettingsState)
    (frags : List (List Nat)) :
    (frags.foldl onDataAvailable (startRecordingOk s0)).audioChunks
      = frags.filter (fun f => decide (0 < f.length))
    ∧ [] ∉ (frags.foldl onDataAvailable (startRecordingOk s0)).audioChunks
    ∧ (frags.foldl onDataAvailable (startRecordingOk s0)).audioChunks.flatten
      = frags.flatten := by
  have hchunks :
      (frags.foldl onDataAvailable (startRecordingOk s0)).audioChunks
        = frags.filter (fun f => decide (0 < f.length)) := by
    rw [foldl_onDataAvailable_chunks]
    simp [startRecordingOk]
  refine ⟨hchunks, ?_, by rw [hchunks, flatten_filter_pos]⟩
  rw [hchunks]
  intro hmem
  have hkeep := List.of_mem_filter hmem
  simp at hkeep
